import Mathlib

/-!
Shallow embedding of the personal-finance-tracker backend core:
the goal/contribution ledger (backend/models/Expense.js goal schema,
backend routes for goals) and the expense/reporting pipeline
(backend routes for expenses and the dashboard).

Monetary amounts are modelled as rationals, instants as integer
milliseconds since the epoch.  Each definition is translated from the
JavaScript source named in its doc comment.
-/

/-- Goal status enumeration (goal schema, `status` field). -/
inductive GoalStatus where
  | Active
  | Completed
  | Paused
  | Cancelled
deriving DecidableEq, Repr

/-- An embedded contribution event (goal schema, `contributions` entries). -/
structure Contribution where
  amount : ℚ
  date : ℤ
  note : String
deriving DecidableEq, Repr

/-- A persisted goal document (goal schema in the models file). -/
structure Goal where
  title : String
  description : String
  targetAmount : ℚ
  currentAmount : ℚ
  targetDate : ℤ
  category : String
  priority : String
  status : GoalStatus
  contributions : List Contribution
  createdAt : ℤ
deriving DecidableEq, Repr

/-- Error taxonomy of the REST layer (spec section 7): ValidationError for
express-validator failures, NotFound for ownership lookups, Conflict for
the business-rule rejection of contributing to a non-Active goal. -/
inductive ApiError where
  | ValidationError
  | NotFound
  | Conflict
deriving DecidableEq, Repr

/-- Sum of the amounts recorded in a contribution list. -/
def contribSum (cs : List Contribution) : ℚ :=
  (cs.map (fun c => c.amount)).sum

/-- `goalSchema.methods.addContribution` (models file): push the new
contribution, add the amount to `currentAmount`, and flip the status to
Completed when `currentAmount >= targetAmount`. -/
def Goal.addContribution (g : Goal) (amount : ℚ) (note : String) (now : ℤ) : Goal :=
  let g1 : Goal := { g with
    contributions := g.contributions ++ [{ amount := amount, date := now, note := note }],
    currentAmount := g.currentAmount + amount }
  if g1.targetAmount ≤ g1.currentAmount then
    { g1 with status := GoalStatus.Completed }
  else
    g1

/-- `POST /api/goals/:id/contribute` (goals route), given the goal already
looked up for the authenticated owner: express-validator requires
`amount >= 0.01` and a note of at most 200 characters, then the route
rejects a non-Active goal ("Cannot contribute to inactive goal", the
taxonomy's Conflict), and otherwise delegates to `addContribution`. -/
def contributeRoute (g : Goal) (amount : ℚ) (note : String) (now : ℤ) :
    Except ApiError Goal :=
  if amount < 1/100 then Except.error ApiError.ValidationError
  else if note.length > 200 then Except.error ApiError.ValidationError
  else if g.status ≠ GoalStatus.Active then Except.error ApiError.Conflict
  else Except.ok (g.addContribution amount note now)

/-- One contribution request: amount, note, and the request instant. -/
structure ContribReq where
  amount : ℚ
  note : String
  now : ℤ
deriving DecidableEq, Repr

/-- The persisted goal after one route call: a failing call writes nothing. -/
def stateAfter (g : Goal) (r : Except ApiError Goal) : Goal :=
  match r with
  | Except.ok g2 => g2
  | Except.error _ => g

/-- Run a sequence of contribution requests against a goal; failed requests
leave the stored document unchanged. -/
def runContributions (g : Goal) : List ContribReq → Goal
  | [] => g
  | r :: rest => runContributions (stateAfter g (contributeRoute g r.amount r.note r.now)) rest

/-- An optional body field violates its validator: express-validator's
`optional()` checks run only when the field is present. -/
def optViolates {α : Type} (o : Option α) (p : α → Bool) : Bool :=
  match o with
  | some a => p a
  | none => false

/-- `POST /api/goals` (goals route): express-validator field checks in
declaration order, then the explicit future-date check, then the document
is built from the body with schema defaults (`currentAmount` 0, status
Active, empty contribution list, `createdAt` from timestamps). -/
def createGoal (title : String) (description : String) (targetAmount : ℚ)
    (targetDate : ℤ) (category : String) (priority : String)
    (currentAmount : Option ℚ) (now : ℤ) : Except ApiError Goal :=
  if title = "" ∨ title.length > 100 then Except.error ApiError.ValidationError
  else if targetAmount < 1/100 then Except.error ApiError.ValidationError
  else if category = "" then Except.error ApiError.ValidationError
  else if description.length > 500 then Except.error ApiError.ValidationError
  else if priority ∉ ["Low", "Medium", "High"] then Except.error ApiError.ValidationError
  else if optViolates currentAmount (fun a => decide (a < 0)) then
    Except.error ApiError.ValidationError
  else if targetDate ≤ now then Except.error ApiError.ValidationError
  else Except.ok
    { title := title, description := description, targetAmount := targetAmount,
      currentAmount := currentAmount.getD 0, targetDate := targetDate,
      category := category, priority := priority, status := GoalStatus.Active,
      contributions := [], createdAt := now }

/-- Partial update body accepted by `PUT /api/goals/:id`. -/
structure GoalUpdateBody where
  title : Option String
  description : Option String
  targetAmount : Option ℚ
  targetDate : Option ℤ
  category : Option String
  priority : Option String
  status : Option GoalStatus
  currentAmount : Option ℚ
deriving DecidableEq, Repr

/-- `PUT /api/goals/:id` (goals route), given the owner's goal: validator
checks on the provided fields, a future-date check only when `targetDate`
is being changed, field-wise merge of the provided values, then the
auto-completion rule (`currentAmount >= targetAmount` while Active flips the
status to Completed).  Saving re-runs schema validators on modified paths
only, which the route-level checks already cover, so the merged document is
persisted as built. -/
def updateGoal (g : Goal) (b : GoalUpdateBody) (now : ℤ) : Except ApiError Goal :=
  if optViolates b.title (fun t => decide (t = "" ∨ t.length > 100)) then
    Except.error ApiError.ValidationError
  else if optViolates b.targetAmount (fun a => decide (a < 1/100)) then
    Except.error ApiError.ValidationError
  else if optViolates b.category (fun c => decide (c = "")) then
    Except.error ApiError.ValidationError
  else if optViolates b.description (fun d => decide (d.length > 500)) then
    Except.error ApiError.ValidationError
  else if optViolates b.priority (fun p => decide (p ∉ ["Low", "Medium", "High"])) then
    Except.error ApiError.ValidationError
  else if optViolates b.currentAmount (fun a => decide (a < 0)) then
    Except.error ApiError.ValidationError
  else if optViolates b.targetDate (fun d => decide (d ≤ now)) then
    Except.error ApiError.ValidationError
  else
    let g1 : Goal := { g with
      title := b.title.getD g.title,
      description := b.description.getD g.description,
      targetAmount := b.targetAmount.getD g.targetAmount,
      targetDate := b.targetDate.getD g.targetDate,
      category := b.category.getD g.category,
      priority := b.priority.getD g.priority,
      status := b.status.getD g.status,
      currentAmount := b.currentAmount.getD g.currentAmount }
    if g1.targetAmount ≤ g1.currentAmount ∧ g1.status = GoalStatus.Active then
      Except.ok { g1 with status := GoalStatus.Completed }
    else
      Except.ok g1

/-- The goal schema virtual `progressPercentage` (models file): 0 when the
target is 0, otherwise the percentage capped at 100. -/
def Goal.progressPercentage (g : Goal) : ℚ :=
  if g.targetAmount = 0 then 0
  else min (g.currentAmount / g.targetAmount * 100) 100

/-- Integer ceiling of `a / b` for a positive divisor `b`, as produced by
`Math.ceil` on the exact quotient. -/
def ceilDiv (a b : ℤ) : ℤ := -((-a).ediv b)

/-- Milliseconds per day, the `1000 * 60 * 60 * 24` constant of the source. -/
def msPerDay : ℤ := 1000 * 60 * 60 * 24

/-- The per-goal block computed by `GET /api/dashboard/goals-progress`. -/
structure GoalProgress where
  progress : ℚ
  remainingAmount : ℚ
  daysRemaining : ℤ
  daysPassed : ℤ
  timeProgress : ℚ
  isOnTrack : Bool
  requiredMonthlyContribution : ℚ
  contributionHistory : List Contribution
deriving DecidableEq, Repr

/-- `GET /api/dashboard/goals-progress` per-goal analysis (dashboard route):
uncapped progress percentage, day counts via `Math.ceil` on millisecond
differences, time progress over whole days, the on-track comparison, the
floored months denominator, and the contribution history sorted by date
descending. -/
def goalProgressOf (g : Goal) (now : ℤ) : GoalProgress :=
  let progress : ℚ := if 0 < g.targetAmount then g.currentAmount / g.targetAmount * 100 else 0
  let remainingAmount : ℚ := max (g.targetAmount - g.currentAmount) 0
  let daysTotal : ℤ := ceilDiv (g.targetDate - g.createdAt) msPerDay
  let daysRemaining : ℤ := ceilDiv (g.targetDate - now) msPerDay
  let daysPassed : ℤ := daysTotal - daysRemaining
  let timeProgress : ℚ := if 0 < daysTotal then (daysPassed : ℚ) / (daysTotal : ℚ) * 100 else 0
  let monthsRemaining : ℚ := max ((daysRemaining : ℚ) / 30) (1/10)
  { progress := progress,
    remainingAmount := remainingAmount,
    daysRemaining := daysRemaining,
    daysPassed := daysPassed,
    timeProgress := timeProgress,
    isOnTrack := decide (timeProgress ≤ progress),
    requiredMonthlyContribution := remainingAmount / monthsRemaining,
    contributionHistory :=
      List.insertionSort (fun a b : Contribution => b.date ≤ a.date) g.contributions }

/-- Response of `GET /api/goals/:id/contributions`. -/
structure ContributionListResult where
  contributions : List Contribution
  totalContributions : ℕ
  totalAmount : ℚ
deriving DecidableEq, Repr

/-- `GET /api/goals/:id/contributions` (goals route): contributions sorted by
date descending, their count, and a `totalAmount` recomputed by summing the
listed contribution amounts. -/
def listContributions (g : Goal) : ContributionListResult :=
  let cs := List.insertionSort (fun a b : Contribution => b.date ≤ a.date) g.contributions
  { contributions := cs,
    totalContributions := cs.length,
    totalAmount := (cs.map (fun c => c.amount)).sum }

/-- A persisted expense document (expense schema in the models file),
restricted to the fields the reporting pipeline reads. -/
structure Expense where
  title : String
  amount : ℚ
  category : String
  description : String
  date : ℤ
  paymentMethod : String
  createdAt : ℤ
deriving DecidableEq, Repr

/-- Total amount spent across a list of expenses (the `$sum` of the
aggregation pipelines). -/
def totalAmountOf (es : List Expense) : ℚ :=
  (es.map (fun e => e.amount)).sum

/-- Per-category total over a list of expenses. -/
def categoryTotal (es : List Expense) (c : String) : ℚ :=
  ((es.filter (fun e => decide (e.category = c))).map (fun e => e.amount)).sum

/-- One `$group`-by-category document: category, summed amount, count. -/
structure CatAgg where
  category : String
  totalAmount : ℚ
  count : ℕ
deriving DecidableEq, Repr

/-- The `$group: { _id: category }` stage: one document per distinct
category with the summed amount and count of its expenses. -/
def groupByCategory (es : List Expense) : List CatAgg :=
  ((es.map (fun e => e.category)).dedup).map
    (fun c =>
      { category := c,
        totalAmount := categoryTotal es c,
        count := (es.filter (fun e => decide (e.category = c))).length })

/-- The `$sort: { totalAmount: -1 }` stage over category groups. -/
def sortByTotalDesc (gs : List CatAgg) : List CatAgg :=
  List.insertionSort (fun a b : CatAgg => b.totalAmount ≤ a.totalAmount) gs

/-- A category entry carrying its percentage share of a period total. -/
structure CatShare where
  category : String
  totalAmount : ℚ
  count : ℕ
  percentage : ℚ
deriving DecidableEq, Repr

/-- Sum of the percentage shares of a breakdown. -/
def shareSum (l : List CatShare) : ℚ :=
  (l.map (fun s => s.percentage)).sum

/-- `GET /api/dashboard/overview`, `categoryBreakdown` block (dashboard
route): group the current month's expenses by category, sort by total
descending, keep the top 10, then attach each category's share of the whole
month's total (0 when that total is not positive). -/
def overviewCategoryBreakdown (monthExpenses : List Expense) : List CatShare :=
  let breakdown := (sortByTotalDesc (groupByCategory monthExpenses)).take 10
  let totalMonthlyExpenses := totalAmountOf monthExpenses
  breakdown.map (fun g =>
    { category := g.category, totalAmount := g.totalAmount, count := g.count,
      percentage :=
        if 0 < totalMonthlyExpenses then g.totalAmount / totalMonthlyExpenses * 100 else 0 })

/-- `GET /api/dashboard/category-analysis`, percentage block (dashboard
route): group the period's expenses by category, sort by total descending,
take the grand total as the sum over the group documents, and attach each
category's share of that total (0 when it is not positive). -/
def categoryAnalysisShares (es : List Expense) : List CatShare :=
  let groups := sortByTotalDesc (groupByCategory es)
  let totalSpent := (groups.map (fun g => g.totalAmount)).sum
  groups.map (fun g =>
    { category := g.category, totalAmount := g.totalAmount, count := g.count,
      percentage := if 0 < totalSpent then g.totalAmount / totalSpent * 100 else 0 })

/-- Query filters accepted by `GET /api/expenses`. -/
structure ExpenseFilter where
  category : Option String
  startDate : Option ℤ
  endDate : Option ℤ
  minAmount : Option ℚ
  maxAmount : Option ℚ
  search : Option String
deriving DecidableEq, Repr

/-- Does the character list `hay` start with the character list `pat`? -/
def startsWithChars : List Char → List Char → Bool
  | _, [] => true
  | [], _ :: _ => false
  | a :: as, b :: bs => a = b && startsWithChars as bs

/-- Does the character list `hay` contain `pat` as a contiguous run? -/
def containsChars : List Char → List Char → Bool
  | [], pat => pat.isEmpty
  | hay@(_ :: rest), pat => startsWithChars hay pat || containsChars rest pat

/-- Case-insensitive substring test, the `$regex .. $options: 'i'` match of
the search filter. -/
def matchesCI (field pat : String) : Bool :=
  containsChars (field.toLower.data) (pat.toLower.data)

/-- The Mongo filter document built by `GET /api/expenses`: category exact
match, inclusive date and amount bounds, and a case-insensitive substring
search over title or description. -/
def matchesFilter (f : ExpenseFilter) (e : Expense) : Bool :=
  (match f.category with | some c => decide (e.category = c) | none => true) &&
  (match f.startDate with | some d => decide (d ≤ e.date) | none => true) &&
  (match f.endDate with | some d => decide (e.date ≤ d) | none => true) &&
  (match f.minAmount with | some a => decide (a ≤ e.amount) | none => true) &&
  (match f.maxAmount with | some a => decide (e.amount ≤ a) | none => true) &&
  (match f.search with | some s => matchesCI e.title s || matchesCI e.description s | none => true)

/-- The `sort({ date: -1, createdAt: -1 })` order of the expense list. -/
def expenseBefore (a b : Expense) : Prop :=
  b.date < a.date ∨ (a.date = b.date ∧ b.createdAt ≤ a.createdAt)

instance : DecidableRel expenseBefore := fun a b =>
  decidable_of_iff (b.date < a.date ∨ (a.date = b.date ∧ b.createdAt ≤ a.createdAt)) Iff.rfl

/-- Response of `GET /api/expenses`. -/
structure ExpenseListResult where
  expenses : List Expense
  currentPage : ℕ
  totalPages : ℕ
  totalItems : ℕ
  itemsPerPage : ℕ
  hasNext : Bool
  hasPrev : Bool
  summaryTotalAmount : ℚ
  summaryCount : ℕ
  summaryAverageAmount : ℚ
deriving DecidableEq, Repr

/-- `GET /api/expenses` (expenses route): filter, sort by date then creation
time descending, skip `(page-1)*limit` and take `limit`, count the filtered
set, compute `totalPages` as the ceiling of `total/limit` (in naturals:
`(total + limit - 1) / limit`), the `hasNext`/`hasPrev` flags, and the
sum/count/average summary over the whole filtered set (zeros when it is
empty). -/
def listExpenses (es : List Expense) (f : ExpenseFilter) (page limit : ℕ) :
    ExpenseListResult :=
  let matched := es.filter (matchesFilter f)
  let sorted := List.insertionSort expenseBefore matched
  let pageItems := (sorted.drop ((page - 1) * limit)).take limit
  let total := matched.length
  let totalPages := (total + limit - 1) / limit
  { expenses := pageItems,
    currentPage := page,
    totalPages := totalPages,
    totalItems := total,
    itemsPerPage := limit,
    hasNext := decide (page < totalPages),
    hasPrev := decide (1 < page),
    summaryTotalAmount := totalAmountOf matched,
    summaryCount := total,
    summaryAverageAmount :=
      if total = 0 then 0 else totalAmountOf matched / (total : ℚ) }

/-! ## Basic facts about the contribution ledger -/

lemma contribSum_nil : contribSum [] = 0 := rfl

lemma contribSum_append (l : List Contribution) (c : Contribution) :
    contribSum (l ++ [c]) = contribSum l + c.amount := by
  simp [contribSum]

lemma addContribution_contributions (g : Goal) (a : ℚ) (n : String) (t : ℤ) :
    (g.addContribution a n t).contributions
      = g.contributions ++ [{ amount := a, date := t, note := n }] := by
  simp only [Goal.addContribution]
  split <;> rfl

lemma addContribution_currentAmount (g : Goal) (a : ℚ) (n : String) (t : ℤ) :
    (g.addContribution a n t).currentAmount = g.currentAmount + a := by
  simp only [Goal.addContribution]
  split <;> rfl

lemma addContribution_targetAmount (g : Goal) (a : ℚ) (n : String) (t : ℤ) :
    (g.addContribution a n t).targetAmount = g.targetAmount := by
  simp only [Goal.addContribution]
  split <;> rfl

lemma addContribution_status (g : Goal) (a : ℚ) (n : String) (t : ℤ) :
    (g.addContribution a n t).status
      = if g.targetAmount ≤ g.currentAmount + a then GoalStatus.Completed else g.status := by
  simp only [Goal.addContribution]
  split <;> rfl

lemma contributeRoute_eq_ok {g : Goal} {a : ℚ} {n : String} {t : ℤ} {g2 : Goal}
    (h : contributeRoute g a n t = Except.ok g2) :
    g.status = GoalStatus.Active ∧ g2 = g.addContribution a n t := by
  simp only [contributeRoute] at h
  split_ifs at h with h1 h2 h3 <;>
    first
      | exact Except.noConfusion h
      | exact ⟨not_not.mp h3, by injection h with h4; exact h4.symm⟩
      | exact ⟨h3, by injection h with h4; exact h4.symm⟩

lemma runContributions_invariant :
    ∀ (reqs : List ContribReq) (g : Goal),
      g.currentAmount = contribSum g.contributions →
      (runContributions g reqs).currentAmount
        = contribSum (runContributions g reqs).contributions
  | [], _, h => h
  | r :: rest, g, h => by
    rw [runContributions]
    apply runContributions_invariant rest
    cases hres : contributeRoute g r.amount r.note r.now with
    | error e => exact h
    | ok g2 =>
      obtain ⟨-, rfl⟩ := contributeRoute_eq_ok hres
      show (g.addContribution r.amount r.note r.now).currentAmount
        = contribSum (g.addContribution r.amount r.note r.now).contributions
      rw [addContribution_currentAmount, addContribution_contributions,
        contribSum_append, h]

lemma createGoal_ok_fields {title description : String} {ta : ℚ} {td : ℤ}
    {category priority : String} {cur : Option ℚ} {now : ℤ} {g : Goal}
    (h : createGoal title description ta td category priority cur now = Except.ok g) :
    g.currentAmount = cur.getD 0 ∧ g.contributions = [] ∧
    g.status = GoalStatus.Active ∧ g.targetAmount = ta ∧ g.createdAt = now := by
  simp only [createGoal] at h
  split_ifs at h
  all_goals try exact Except.noConfusion h
  all_goals injection h with h4
  all_goals subst h4
  all_goals exact ⟨rfl, rfl, rfl, rfl, rfl⟩

/-! ## C1 -/

/-- C1: for a goal created with `currentAmount` 0, after any sequence of
contribution requests processed by the contribute route (failed requests
write nothing), the stored `currentAmount` equals the sum of the amounts of
the contributions recorded in its list. -/
theorem goal_currentAmount_eq_contribSum
    (title description : String) (ta : ℚ) (td : ℤ) (category priority : String)
    (cur : Option ℚ) (created : ℤ) (g0 : Goal) (reqs : List ContribReq)
    (hcreate : createGoal title description ta td category priority cur created
      = Except.ok g0)
    (h0 : g0.currentAmount = 0) :
    (runContributions g0 reqs).currentAmount
      = contribSum (runContributions g0 reqs).contributions := by
  obtain ⟨-, hcontribs, -, -, -⟩ := createGoal_ok_fields hcreate
  exact runContributions_invariant reqs g0 (by rw [h0, hcontribs, contribSum_nil])

/-- Concrete goal used to instantiate the C1 theorem. -/
def gC1w : Goal :=
  { title := "Trip", description := "", targetAmount := 1000, currentAmount := 0,
    targetDate := 30, category := "Vacation", priority := "Medium",
    status := GoalStatus.Active, contributions := [], createdAt := 0 }

theorem goal_currentAmount_eq_contribSum_witness :
    (runContributions gC1w
        [{ amount := 300, note := "p", now := 5 }, { amount := 700, note := "q", now := 6 }]).currentAmount
      = contribSum (runContributions gC1w
        [{ amount := 300, note := "p", now := 5 }, { amount := 700, note := "q", now := 6 }]).contributions :=
  goal_currentAmount_eq_contribSum "Trip" "" 1000 30 "Vacation" "Medium" none 0 gC1w _
    (by
      simp only [createGoal]
      rw [if_neg (by decide), if_neg (by norm_num), if_neg (by decide), if_neg (by decide),
        if_neg (by decide), if_neg (by decide), if_neg (by decide)]
      rfl)
    rfl

/-! ## C2 -/

/-- C2: a successful contribute call on an Active goal appends exactly the
requested contribution, raises `currentAmount` by exactly the requested
amount, and ends Completed precisely when the raised `currentAmount` has
reached `targetAmount`. -/
theorem contribute_active_effect (g : Goal) (a : ℚ) (n : String) (t : ℤ) (g2 : Goal)
    (hA : g.status = GoalStatus.Active)
    (hok : contributeRoute g a n t = Except.ok g2) :
    g2.contributions = g.contributions ++ [{ amount := a, date := t, note := n }] ∧
    g2.currentAmount = g.currentAmount + a ∧
    (g2.status = GoalStatus.Completed ↔ g.targetAmount ≤ g.currentAmount + a) := by
  obtain ⟨-, rfl⟩ := contributeRoute_eq_ok hok
  refine ⟨addContribution_contributions g a n t, addContribution_currentAmount g a n t, ?_⟩
  rw [addContribution_status]
  by_cases hc : g.targetAmount ≤ g.currentAmount + a
  · rw [if_pos hc]
    simp [hc]
  · rw [if_neg hc, hA]
    simp [hc]

theorem contribute_active_effect_witness :
    ({ title := "Car", description := "", targetAmount := 100, currentAmount := 70,
       targetDate := 50, category := "Car", priority := "High",
       status := GoalStatus.Active, contributions := [], createdAt := 0 } : Goal).status
        = GoalStatus.Active ∧
    (let g : Goal :=
      { title := "Car", description := "", targetAmount := 100, currentAmount := 70,
        targetDate := 50, category := "Car", priority := "High",
        status := GoalStatus.Active, contributions := [], createdAt := 0 }
     let g2 := g.addContribution 40 "last" 7
     g2.contributions = g.contributions ++ [{ amount := 40, date := 7, note := "last" }] ∧
     g2.currentAmount = g.currentAmount + 40 ∧
     (g2.status = GoalStatus.Completed ↔ g.targetAmount ≤ g.currentAmount + 40)) :=
  ⟨rfl, contribute_active_effect _ 40 "last" 7 _ rfl
    (by
      simp only [contributeRoute]
      rw [if_neg (by norm_num), if_neg (by decide), if_neg (by simp)])⟩

/-! ## C3 -/

/-- C3: a contribute call with a valid body against a goal that is not
Active fails with the Conflict error and leaves the stored goal unchanged. -/
theorem contribute_inactive_conflict (g : Goal) (a : ℚ) (n : String) (t : ℤ)
    (hA : g.status ≠ GoalStatus.Active)
    (hamount : 1/100 ≤ a) (hnote : n.length ≤ 200) :
    contributeRoute g a n t = Except.error ApiError.Conflict ∧
    stateAfter g (contributeRoute g a n t) = g := by
  have hroute : contributeRoute g a n t = Except.error ApiError.Conflict := by
    simp only [contributeRoute]
    rw [if_neg (not_lt.mpr hamount), if_neg (not_lt.mpr hnote), if_pos hA]
  exact ⟨hroute, by rw [hroute]; rfl⟩

theorem contribute_inactive_conflict_witness :
    contributeRoute
        { title := "Car", description := "", targetAmount := 100, currentAmount := 10,
          targetDate := 50, category := "Car", priority := "Low",
          status := GoalStatus.Paused, contributions := [], createdAt := 0 }
        5 "x" 9
      = Except.error ApiError.Conflict ∧
    stateAfter
        { title := "Car", description := "", targetAmount := 100, currentAmount := 10,
          targetDate := 50, category := "Car", priority := "Low",
          status := GoalStatus.Paused, contributions := [], createdAt := 0 }
        (contributeRoute
          { title := "Car", description := "", targetAmount := 100, currentAmount := 10,
            targetDate := 50, category := "Car", priority := "Low",
            status := GoalStatus.Paused, contributions := [], createdAt := 0 }
          5 "x" 9)
      = { title := "Car", description := "", targetAmount := 100, currentAmount := 10,
          targetDate := 50, category := "Car", priority := "Low",
          status := GoalStatus.Paused, contributions := [], createdAt := 0 } :=
  contribute_inactive_conflict _ 5 "x" 9 (by decide) (by norm_num) (by decide)

/-! ## C4 -/

/-- C4: an update whose body does not touch `targetDate` succeeds even when
the stored `targetDate` has already passed; the stale date is kept and no
overdue rejection happens, provided the supplied fields pass their own
validators. -/
theorem update_overdue_targetDate_succeeds (g : Goal) (b : GoalUpdateBody) (now : ℤ)
    (hover : g.targetDate ≤ now)
    (hnd : b.targetDate = none)
    (htitle : optViolates b.title (fun t => decide (t = "" ∨ t.length > 100)) = false)
    (hta : optViolates b.targetAmount (fun a => decide (a < 1/100)) = false)
    (hcat : optViolates b.category (fun c => decide (c = "")) = false)
    (hdesc : optViolates b.description (fun d => decide (d.length > 500)) = false)
    (hprio : optViolates b.priority (fun p => decide (p ∉ ["Low", "Medium", "High"])) = false)
    (hcur : optViolates b.currentAmount (fun a => decide (a < 0)) = false) :
    ∃ g2, updateGoal g b now = Except.ok g2 ∧ g2.targetDate = g.targetDate := by
  simp only [updateGoal, htitle, hta, hcat, hdesc, hprio, hcur, hnd]
  simp only [optViolates, Bool.false_eq_true, if_false, Option.getD_none]
  by_cases hc : (b.targetAmount.getD g.targetAmount ≤ b.currentAmount.getD g.currentAmount)
      ∧ b.status.getD g.status = GoalStatus.Active
  · rw [if_pos hc]
    exact ⟨_, rfl, rfl⟩
  · rw [if_neg hc]
    exact ⟨_, rfl, rfl⟩

theorem update_overdue_targetDate_succeeds_witness :
    ∃ g2, updateGoal
        { title := "Car", description := "", targetAmount := 100, currentAmount := 10,
          targetDate := 50, category := "Car", priority := "Low",
          status := GoalStatus.Active, contributions := [], createdAt := 0 }
        { title := some "Newer title", description := none, targetAmount := none,
          targetDate := none, category := none, priority := some "High",
          status := none, currentAmount := none }
        60
      = Except.ok g2 ∧
      g2.targetDate
        = ({ title := "Car", description := "", targetAmount := 100, currentAmount := 10,
             targetDate := 50, category := "Car", priority := "Low",
             status := GoalStatus.Active, contributions := [], createdAt := 0 } : Goal).targetDate :=
  update_overdue_targetDate_succeeds _ _ 60 (by decide) rfl (by decide) rfl (by decide)
    rfl (by decide) rfl

/-! ## C9 -/

/-- C9: the generic goal update also auto-completes: when the merged body
leaves the goal Active with `currentAmount` at or above `targetAmount`, the
saved goal's status is Completed. -/
theorem update_auto_completes (g : Goal) (b : GoalUpdateBody) (now : ℤ) (g2 : Goal)
    (hok : updateGoal g b now = Except.ok g2)
    (hA : b.status.getD g.status = GoalStatus.Active)
    (hge : b.targetAmount.getD g.targetAmount ≤ b.currentAmount.getD g.currentAmount) :
    g2.status = GoalStatus.Completed := by
  simp only [updateGoal] at hok
  split_ifs at hok with h1 h2 h3 h4 h5 h6 h7 h8
  all_goals try exact Except.noConfusion hok
  · injection hok with h9
    rw [← h9]
  · exact absurd ⟨hge, hA⟩ h8

/-- Concrete inputs instantiating the C9 theorem. -/
def gC9w : Goal :=
  { title := "Car", description := "", targetAmount := 100, currentAmount := 10,
    targetDate := 50, category := "Car", priority := "Low",
    status := GoalStatus.Active, contributions := [], createdAt := 0 }

/-- Update body raising `currentAmount` past the target. -/
def bC9w : GoalUpdateBody :=
  { title := none, description := none, targetAmount := none,
    targetDate := none, category := none, priority := none,
    status := none, currentAmount := some 120 }

/-- The merged and auto-completed goal produced by the C9 update. -/
def gC9w2 : Goal :=
  { title := "Car", description := "", targetAmount := 100, currentAmount := 120,
    targetDate := 50, category := "Car", priority := "Low",
    status := GoalStatus.Completed, contributions := [], createdAt := 0 }

theorem update_auto_completes_witness :
    updateGoal gC9w bC9w 20 = Except.ok gC9w2 ∧
    gC9w2.status = GoalStatus.Completed := by
  have hok : updateGoal gC9w bC9w 20 = Except.ok gC9w2 := by
    simp only [updateGoal, gC9w, bC9w]
    rw [if_neg (by decide), if_neg (by decide), if_neg (by decide), if_neg (by decide),
      if_neg (by decide), if_neg (by decide), if_neg (by decide),
      if_pos (by refine ⟨by norm_num, rfl⟩)]
    rfl
  exact ⟨hok, update_auto_completes gC9w bC9w 20 gC9w2 hok rfl (by norm_num [gC9w, bC9w])⟩

/-! ## C5 -/

/-- Goal that overshot its target (1500 saved of 1000). -/
def gC5cex : Goal :=
  { title := "Over", description := "", targetAmount := 1000, currentAmount := 1500,
    targetDate := 2592000000, category := "Other", priority := "Medium",
    status := GoalStatus.Active, contributions := [], createdAt := 0 }

/-- C5 counterexample: the goals-progress report returns 150 for a goal at
150% of its target, exceeding 100 and disagreeing with the capped
min(currentAmount/targetAmount*100, 100) formula. -/
theorem goalsProgress_progress_uncapped_cex :
    (goalProgressOf gC5cex 86400000).progress = 150 ∧
    100 < (goalProgressOf gC5cex 86400000).progress ∧
    (goalProgressOf gC5cex 86400000).progress
      ≠ min (gC5cex.currentAmount / gC5cex.targetAmount * 100) 100 := by
  have hp : (goalProgressOf gC5cex 86400000).progress = 150 := by
    norm_num [goalProgressOf, gC5cex]
  have hfrac : gC5cex.currentAmount / gC5cex.targetAmount * 100 = 150 := by
    norm_num [gC5cex]
  have hmin : min (gC5cex.currentAmount / gC5cex.targetAmount * 100) 100 = 100 := by
    rw [hfrac, min_eq_right (by norm_num : (100:ℚ) ≤ 150)]
  refine ⟨hp, by rw [hp]; norm_num, by rw [hp, hmin]; norm_num⟩

/-- C5 amended: the report's progress is the uncapped percentage
`currentAmount/targetAmount*100` (0 when the target is not positive), so it
can exceed 100; it matches the capped min formula of the schema virtual
exactly when the goal has not overshot its target. -/
theorem goalsProgress_progress_formula (g : Goal) (now : ℤ) (ht : 0 < g.targetAmount) :
    (goalProgressOf g now).progress = g.currentAmount / g.targetAmount * 100 ∧
    (g.currentAmount ≤ g.targetAmount →
      (goalProgressOf g now).progress
        = min (g.currentAmount / g.targetAmount * 100) 100) := by
  have hp : (goalProgressOf g now).progress = g.currentAmount / g.targetAmount * 100 := by
    simp only [goalProgressOf, if_pos ht]
  refine ⟨hp, fun hle => ?_⟩
  rw [hp, min_eq_left]
  calc g.currentAmount / g.targetAmount * 100
      ≤ 1 * 100 := by
        apply mul_le_mul_of_nonneg_right _ (by norm_num)
        exact (div_le_one ht).mpr hle
    _ = 100 := one_mul 100

/-- Concrete goal at 40% of target instantiating the C5 amended theorem. -/
def gC5w : Goal :=
  { title := "Part", description := "", targetAmount := 1000, currentAmount := 400,
    targetDate := 2592000000, category := "Other", priority := "Medium",
    status := GoalStatus.Active, contributions := [], createdAt := 0 }

theorem goalsProgress_progress_formula_witness :
    (goalProgressOf gC5w 0).progress = gC5w.currentAmount / gC5w.targetAmount * 100 ∧
    (gC5w.currentAmount ≤ gC5w.targetAmount →
      (goalProgressOf gC5w 0).progress
        = min (gC5w.currentAmount / gC5w.targetAmount * 100) 100) :=
  goalsProgress_progress_formula gC5w 0 (by norm_num [gC5w])

/-! ## C6 -/

/-- Goal twelve hours into a ten-day window with nothing saved yet. -/
def gC6cex : Goal :=
  { title := "New", description := "", targetAmount := 100, currentAmount := 0,
    targetDate := 864000000, category := "Other", priority := "Medium",
    status := GoalStatus.Active, contributions := [], createdAt := 0 }

/-- C6 counterexample: twelve hours into a ten-day goal with nothing saved,
the report says on-track (its day-granular time progress is still 0), yet
the exact elapsed-time fraction 1/20 strictly exceeds the amount fraction
0, so the claimed if-and-only-if with the exact fractions fails. -/
theorem isOnTrack_not_exact_fraction_cex :
    (goalProgressOf gC6cex 43200000).isOnTrack = true ∧
    ¬ ((((43200000 : ℤ) - gC6cex.createdAt : ℤ) : ℚ)
          / ((gC6cex.targetDate - gC6cex.createdAt : ℤ) : ℚ)
        ≤ gC6cex.currentAmount / gC6cex.targetAmount) := by
  have h1 : ceilDiv ((864000000:ℤ) - 0) msPerDay = 10 := by decide
  have h2 : ceilDiv ((864000000:ℤ) - 43200000) msPerDay = 10 := by decide
  constructor
  · simp only [goalProgressOf, gC6cex]
    rw [h1, h2]
    norm_num
  · norm_num [gC6cex]

/-- C6 amended: the report's on-track flag compares the amount fraction
against the day-granular elapsed fraction daysPassed/daysTotal, where both
day counts come from Math.ceil of millisecond differences - not against the
exact elapsed-time fraction; equality still counts as on track. -/
theorem isOnTrack_iff_day_granular (g : Goal) (now : ℤ)
    (ht : 0 < g.targetAmount)
    (hd : 0 < ceilDiv (g.targetDate - g.createdAt) msPerDay) :
    ((goalProgressOf g now).isOnTrack = true ↔
      ((ceilDiv (g.targetDate - g.createdAt) msPerDay
          - ceilDiv (g.targetDate - now) msPerDay : ℤ) : ℚ)
          / ((ceilDiv (g.targetDate - g.createdAt) msPerDay : ℤ) : ℚ)
        ≤ g.currentAmount / g.targetAmount) := by
  simp only [goalProgressOf, if_pos ht, if_pos hd, decide_eq_true_eq]
  exact mul_le_mul_right (by norm_num : (0:ℚ) < 100)

/-- Concrete goal halfway through its window at half its target. -/
def gC6w : Goal :=
  { title := "Mid", description := "", targetAmount := 100, currentAmount := 50,
    targetDate := 864000000, category := "Other", priority := "Medium",
    status := GoalStatus.Active, contributions := [], createdAt := 0 }

theorem isOnTrack_iff_day_granular_witness :
    ((goalProgressOf gC6w 432000000).isOnTrack = true ↔
      ((ceilDiv (gC6w.targetDate - gC6w.createdAt) msPerDay
          - ceilDiv (gC6w.targetDate - 432000000) msPerDay : ℤ) : ℚ)
          / ((ceilDiv (gC6w.targetDate - gC6w.createdAt) msPerDay : ℤ) : ℚ)
        ≤ gC6w.currentAmount / gC6w.targetAmount) :=
  isOnTrack_iff_day_granular gC6w 432000000 (by norm_num [gC6w]) (by decide)

/-! ## C10 -/

lemma listContributions_totalAmount (g : Goal) :
    (listContributions g).totalAmount = contribSum g.contributions := by
  simp only [listContributions, contribSum]
  exact ((List.perm_insertionSort (fun a b : Contribution => b.date ≤ a.date)
    g.contributions).map (fun c => c.amount)).sum_eq

/-- A goal as created with a seeded `currentAmount` of 500. -/
def gC10seed : Goal :=
  { title := "Car", description := "", targetAmount := 1000, currentAmount := 500,
    targetDate := 50, category := "Car", priority := "Medium",
    status := GoalStatus.Active, contributions := [], createdAt := 0 }

/-- C10: the contributions listing recomputes its `totalAmount` by summing
the goal's embedded contribution list, independently of the stored
`currentAmount`; for a goal created with a seeded `currentAmount` the two
therefore differ. -/
theorem listContributions_total_recomputed :
    (∀ g : Goal, (listContributions g).totalAmount = contribSum g.contributions) ∧
    (∃ g : Goal,
      createGoal "Car" "" 1000 50 "Car" "Medium" (some 500) 0 = Except.ok g ∧
      (listContributions g).totalAmount ≠ g.currentAmount) := by
  refine ⟨listContributions_totalAmount, gC10seed, ?_, ?_⟩
  · simp only [createGoal, gC10seed]
    rw [if_neg (by decide), if_neg (by norm_num), if_neg (by decide), if_neg (by decide),
      if_neg (by decide), if_neg (by norm_num [optViolates]), if_neg (by decide)]
    rfl
  · rw [listContributions_totalAmount]
    norm_num [contribSum, gC10seed]

/-! ## C7 -/

lemma sum_map_add_distrib {α : Type} (l : List α) (f g : α → ℚ) :
    (l.map (fun x => f x + g x)).sum = (l.map f).sum + (l.map g).sum := by
  induction l with
  | nil => simp
  | cons a t ih => simp only [List.map_cons, List.sum_cons, ih]; ring

lemma sum_map_mul_const {α : Type} (l : List α) (f : α → ℚ) (c : ℚ) :
    (l.map (fun x => f x * c)).sum = (l.map f).sum * c := by
  induction l with
  | nil => simp
  | cons a t ih => simp only [List.map_cons, List.sum_cons, ih, add_mul]

lemma sum_map_ite_single (cs : List String) (x : String) (a : ℚ)
    (hnd : cs.Nodup) (hx : x ∈ cs) :
    (cs.map (fun c => if x = c then a else 0)).sum = a := by
  induction cs with
  | nil => cases hx
  | cons c t ih =>
    rcases List.mem_cons.mp hx with h | h
    · subst h
      have hz : (t.map (fun c => if x = c then a else 0)).sum = 0 := by
        apply List.sum_eq_zero
        intro y hy
        obtain ⟨c2, hc2, rfl⟩ := List.mem_map.mp hy
        rw [if_neg]
        intro he
        exact (List.nodup_cons.mp hnd).1 (he ▸ hc2)
      rw [List.map_cons, List.sum_cons, if_pos rfl, hz, add_zero]
    · have hne : x ≠ c := by
        intro he
        exact (List.nodup_cons.mp hnd).1 (he ▸ h)
      simp only [List.map_cons, List.sum_cons, if_neg hne]
      rw [ih (List.nodup_cons.mp hnd).2 h, zero_add]

lemma categoryTotal_cons (e : Expense) (es : List Expense) (c : String) :
    categoryTotal (e :: es) c
      = (if e.category = c then e.amount else 0) + categoryTotal es c := by
  simp only [categoryTotal, List.filter_cons]
  by_cases h : e.category = c
  · simp [h]
  · simp [h]

lemma sum_categoryTotal_eq (es : List Expense) (cs : List String)
    (hnd : cs.Nodup) (hall : ∀ e ∈ es, e.category ∈ cs) :
    (cs.map (fun c => categoryTotal es c)).sum = totalAmountOf es := by
  induction es with
  | nil =>
    have hz : ∀ y ∈ cs.map (fun c => categoryTotal ([] : List Expense) c), y = 0 := by
      intro y hy
      obtain ⟨c, -, rfl⟩ := List.mem_map.mp hy
      simp [categoryTotal]
    rw [List.sum_eq_zero hz]
    simp [totalAmountOf]
  | cons e t ih =>
    simp only [categoryTotal_cons]
    rw [sum_map_add_distrib, sum_map_ite_single cs e.category e.amount hnd (hall e (by simp)),
      ih (fun x hx => hall x (by simp [hx]))]
    simp [totalAmountOf]

lemma groupByCategory_totals (es : List Expense) :
    ((groupByCategory es).map (fun g => g.totalAmount)).sum = totalAmountOf es := by
  simp only [groupByCategory, List.map_map]
  show ((es.map fun e => e.category).dedup.map (fun c => categoryTotal es c)).sum
    = totalAmountOf es
  exact sum_categoryTotal_eq es _ (List.nodup_dedup _)
    (fun e he => List.mem_dedup.mpr (List.mem_map_of_mem _ he))

lemma sortByTotalDesc_totals (gs : List CatAgg) :
    ((sortByTotalDesc gs).map (fun g => g.totalAmount)).sum
      = (gs.map (fun g => g.totalAmount)).sum :=
  ((List.perm_insertionSort (fun a b : CatAgg => b.totalAmount ≤ a.totalAmount) gs).map
    (fun g => g.totalAmount)).sum_eq

lemma sortedGroups_totals (es : List Expense) :
    ((sortByTotalDesc (groupByCategory es)).map (fun g => g.totalAmount)).sum
      = totalAmountOf es := by
  rw [sortByTotalDesc_totals, groupByCategory_totals]

lemma shares_sum_100 (gs : List CatAgg) (T : ℚ) (hT : 0 < T)
    (hsum : (gs.map (fun g => g.totalAmount)).sum = T) :
    ((gs.map (fun g =>
      ({ category := g.category, totalAmount := g.totalAmount, count := g.count,
         percentage := if 0 < T then g.totalAmount / T * 100 else 0 } : CatShare))).map
        (fun s => s.percentage)).sum = 100 := by
  rw [List.map_map]
  show (gs.map (fun g => if 0 < T then g.totalAmount / T * 100 else 0)).sum = 100
  simp only [if_pos hT, div_mul_eq_mul_div, mul_div_assoc]
  rw [sum_map_mul_const, hsum, mul_comm, div_mul_cancel₀ _ (ne_of_gt hT)]

/-- C7 amended: category-analysis shares sum to exactly 100 whenever the
period total is positive, and every share is 0 when the total is 0; the
Overview's top-10 breakdown also gives all-zero shares on a zero total and
sums to 100 only when at most ten categories occur (with more, the dropped
categories leave the sum strictly short since every share still divides by
the full month total). -/
theorem category_share_sums (es : List Expense) :
    (0 < totalAmountOf es → shareSum (categoryAnalysisShares es) = 100) ∧
    (totalAmountOf es = 0 → ∀ s ∈ categoryAnalysisShares es, s.percentage = 0) ∧
    (totalAmountOf es = 0 → ∀ s ∈ overviewCategoryBreakdown es, s.percentage = 0) ∧
    ((es.map (fun e => e.category)).dedup.length ≤ 10 → 0 < totalAmountOf es →
      shareSum (overviewCategoryBreakdown es) = 100) := by
  refine ⟨?_, ?_, ?_, ?_⟩
  · intro hpos
    simp only [categoryAnalysisShares, shareSum]
    exact shares_sum_100 _ _ (by rw [sortedGroups_totals]; exact hpos) rfl
  · intro hzero s hs
    simp only [categoryAnalysisShares, List.mem_map] at hs
    obtain ⟨g, -, rfl⟩ := hs
    show (if 0 < ((sortByTotalDesc (groupByCategory es)).map (fun g => g.totalAmount)).sum
      then _ else 0) = 0
    rw [if_neg]
    rw [sortedGroups_totals, hzero]
    exact lt_irrefl 0
  · intro hzero s hs
    simp only [overviewCategoryBreakdown, List.mem_map] at hs
    obtain ⟨g, -, rfl⟩ := hs
    show (if 0 < totalAmountOf es then _ else 0) = 0
    rw [if_neg]
    rw [hzero]
    exact lt_irrefl 0
  · intro hlen hpos
    have hfull : (sortByTotalDesc (groupByCategory es)).take 10
        = sortByTotalDesc (groupByCategory es) := by
      apply List.take_of_length_le
      show (List.insertionSort _ (groupByCategory es)).length ≤ 10
      rw [List.length_insertionSort]
      simpa [groupByCategory] using hlen
    simp only [overviewCategoryBreakdown, shareSum, hfull]
    exact shares_sum_100 _ _ hpos (sortedGroups_totals es)

/-- A single current-month expense instantiating the C7 amended theorem. -/
def esC7w : List Expense :=
  [{ title := "Coffee", amount := 5, category := "Food & Dining", description := "",
     date := 0, paymentMethod := "Cash", createdAt := 0 }]

theorem category_share_sums_witness :
    shareSum (categoryAnalysisShares esC7w) = 100 ∧
    shareSum (overviewCategoryBreakdown esC7w) = 100 :=
  ⟨(category_share_sums esC7w).1 (by norm_num [totalAmountOf, esC7w]),
   (category_share_sums esC7w).2.2.2 (by decide) (by norm_num [totalAmountOf, esC7w])⟩

/-- Eleven expenses of amount 1 in eleven distinct categories, all inside
one calendar month. -/
def esC7cex : List Expense :=
  [{ title := "e1", amount := 1, category := "Food & Dining", description := "",
     date := 1, paymentMethod := "Cash", createdAt := 1 },
   { title := "e2", amount := 1, category := "Transportation", description := "",
     date := 2, paymentMethod := "Cash", createdAt := 2 },
   { title := "e3", amount := 1, category := "Shopping", description := "",
     date := 3, paymentMethod := "Cash", createdAt := 3 },
   { title := "e4", amount := 1, category := "Entertainment", description := "",
     date := 4, paymentMethod := "Cash", createdAt := 4 },
   { title := "e5", amount := 1, category := "Bills & Utilities", description := "",
     date := 5, paymentMethod := "Cash", createdAt := 5 },
   { title := "e6", amount := 1, category := "Healthcare", description := "",
     date := 6, paymentMethod := "Cash", createdAt := 6 },
   { title := "e7", amount := 1, category := "Education", description := "",
     date := 7, paymentMethod := "Cash", createdAt := 7 },
   { title := "e8", amount := 1, category := "Travel", description := "",
     date := 8, paymentMethod := "Cash", createdAt := 8 },
   { title := "e9", amount := 1, category := "Groceries", description := "",
     date := 9, paymentMethod := "Cash", createdAt := 9 },
   { title := "e10", amount := 1, category := "Housing", description := "",
     date := 10, paymentMethod := "Cash", createdAt := 10 },
   { title := "e11", amount := 1, category := "Insurance", description := "",
     date := 11, paymentMethod := "Cash", createdAt := 11 }]

/-- C7 counterexample: with eleven spending categories in the month, the
Overview's breakdown keeps only the top ten yet still divides each share by
the full month total, so the returned shares sum to 1000/11 (about 90.9),
well outside rounding distance of 100, even though total spending is
positive. -/
theorem overview_share_sum_cex :
    0 < totalAmountOf esC7cex ∧
    shareSum (overviewCategoryBreakdown esC7cex) = 1000 / 11 ∧
    (1000 / 11 : ℚ) < 91 := by
  refine ⟨by norm_num [totalAmountOf, esC7cex], ?_, by norm_num⟩
  simp +decide [overviewCategoryBreakdown, groupByCategory, sortByTotalDesc, shareSum,
    categoryTotal, totalAmountOf, esC7cex, List.insertionSort, List.orderedInsert,
    List.dedup_cons_of_mem, List.dedup_cons_of_not_mem, List.filter_cons]
  norm_num

/-! ## C8 -/

lemma natCeilDiv_cast (t l : ℕ) (hl : 0 < l) :
    ⌈(t : ℚ) / (l : ℚ)⌉ = (((t + l - 1) / l : ℕ) : ℤ) := by
  have hdm := Nat.div_add_mod (t + l - 1) l
  have hmod := Nat.mod_lt (t + l - 1) hl
  set q := (t + l - 1) / l with hq
  rw [mul_comm l q] at hdm
  have hbounds : t ≤ q * l ∧ q * l < t + l := by
    generalize hm : q * l = m at hdm ⊢
    omega
  have hlq : (0:ℚ) < (l:ℚ) := by exact_mod_cast hl
  rw [Int.ceil_eq_iff]
  constructor
  · rw [lt_div_iff hlq]
    have h2 : ((q * l : ℕ) : ℚ) < ((t + l : ℕ) : ℚ) := by exact_mod_cast hbounds.2
    push_cast at h2 ⊢
    linarith
  · rw [div_le_iff hlq]
    have h1 : ((t : ℕ) : ℚ) ≤ ((q * l : ℕ) : ℚ) := by exact_mod_cast hbounds.1
    push_cast at h1 ⊢
    linarith

/-- C8: for a valid page window (page at least 1, limit between 1 and 100)
the expense list's pagination metadata is consistent - `totalPages` is the
ceiling of `totalItems/itemsPerPage`, `hasNext` holds iff the current page
is before the last, `hasPrev` iff it is after the first - and every record
of the returned page matches the requested filter. -/
theorem listExpenses_pagination (es : List Expense) (f : ExpenseFilter) (page limit : ℕ)
    (hpage : 1 ≤ page) (hlimit : 1 ≤ limit) (hlimit100 : limit ≤ 100) :
    ((listExpenses es f page limit).totalPages : ℤ)
      = ⌈((listExpenses es f page limit).totalItems : ℚ)
          / ((listExpenses es f page limit).itemsPerPage : ℚ)⌉ ∧
    ((listExpenses es f page limit).hasNext = true
      ↔ (listExpenses es f page limit).currentPage
          < (listExpenses es f page limit).totalPages) ∧
    ((listExpenses es f page limit).hasPrev = true
      ↔ 1 < (listExpenses es f page limit).currentPage) ∧
    (∀ e ∈ (listExpenses es f page limit).expenses, matchesFilter f e = true) := by
  refine ⟨?_, ?_, ?_, ?_⟩
  · show ((((es.filter (matchesFilter f)).length + limit - 1) / limit : ℕ) : ℤ)
      = ⌈(((es.filter (matchesFilter f)).length : ℕ) : ℚ) / ((limit : ℕ) : ℚ)⌉
    exact (natCeilDiv_cast ((es.filter (matchesFilter f)).length) limit hlimit).symm
  · exact decide_eq_true_iff
  · exact decide_eq_true_iff
  · intro e he
    have he2 : e ∈ List.insertionSort expenseBefore (es.filter (matchesFilter f)) :=
      List.mem_of_mem_drop (List.mem_of_mem_take he)
    have he3 : e ∈ es.filter (matchesFilter f) :=
      (List.perm_insertionSort expenseBefore _).mem_iff.mp he2
    exact (List.mem_filter.mp he3).2

/-- Two expenses, one matching the category filter used in the witness. -/
def esC8w : List Expense :=
  [{ title := "a", amount := 3, category := "Food & Dining", description := "",
     date := 5, paymentMethod := "Cash", createdAt := 1 },
   { title := "b", amount := 7, category := "Travel", description := "",
     date := 6, paymentMethod := "Cash", createdAt := 2 }]

/-- Category filter matching exactly one witness expense. -/
def fC8w : ExpenseFilter :=
  { category := some "Food & Dining", startDate := none, endDate := none,
    minAmount := none, maxAmount := none, search := none }

theorem listExpenses_pagination_witness :
    ((listExpenses esC8w fC8w 1 1).totalPages : ℤ)
      = ⌈((listExpenses esC8w fC8w 1 1).totalItems : ℚ)
          / ((listExpenses esC8w fC8w 1 1).itemsPerPage : ℚ)⌉ ∧
    ((listExpenses esC8w fC8w 1 1).hasNext = true
      ↔ (listExpenses esC8w fC8w 1 1).currentPage
          < (listExpenses esC8w fC8w 1 1).totalPages) ∧
    ((listExpenses esC8w fC8w 1 1).hasPrev = true
      ↔ 1 < (listExpenses esC8w fC8w 1 1).currentPage) ∧
    (∀ e ∈ (listExpenses esC8w fC8w 1 1).expenses, matchesFilter fC8w e = true) :=
  listExpenses_pagination esC8w fC8w 1 1 (by norm_num) (by norm_num) (by norm_num)
